import Mathlib

/-!
Shallow embedding of the rendering and animation engine of
`src/main_desktop.py` (UK Train Departure Display, desktop version), together
with theorems checking the natural-language specification against it.

The embedding follows the source file closely:

* `ScrollState` / `scrollStep` — the four animation counters mutated by
  `DepartureBoard._draw_scrolling_text` and the state update that method
  performs once per frame.
* `Bitmap` / `draw_bitmap` / `draw_bitmap_clipped` — the pixel-blit
  primitives `_draw_bitmap` and `_draw_bitmap_clipped`; a blit is embedded as
  the list of screen coordinates it writes.
* `Departure` / `get_status_text` / `draw_departure_row` / `draw_no_trains` —
  the layout logic, embedded as the list of text placements (draw calls) a
  row produces; text measurement (the bitmap cache widths) is a parameter.
* `get_bitmap` — the `BitmapTextCache.get_bitmap` lookup, with the cache as
  an association list and the font's measgroup/rasterize operations as
  parameters.
* `refresh_data` — the state replacement performed by
  `DepartureBoard._refresh_data`, with the external world (operating hours
  check, API fetch result) as parameters.
-/

/-- Animation state for the scrolling "calling at" text: the fields
`pixels_left`, `pixels_up`, `has_elevated`, `pause_count` of
`DepartureBoard` (src/main_desktop.py lines 81-84). -/
structure ScrollState where
  has_elevated : Bool
  pixels_left : Int
  pixels_up : Int
  pause_count : Int
deriving DecidableEq, Repr

/-- State update performed by one call to
`DepartureBoard._draw_scrolling_text` (src/main_desktop.py lines 254-285),
where `w`/`h` are the width and height of the calling-at text bitmap. -/
def scrollStep (w h : Int) (s : ScrollState) : ScrollState :=
  if s.has_elevated then
    if -s.pixels_left > w ∧ s.pause_count < 8 then
      { s with pause_count := s.pause_count + 1, pixels_left := 0,
               has_elevated := false }
    else
      { s with pause_count := 0, pixels_left := s.pixels_left - 1 }
  else
    if s.pixels_up = h then
      let pc := s.pause_count + 1
      if pc > 100 then
        { s with pause_count := pc, has_elevated := true, pixels_up := 0 }
      else
        { s with pause_count := pc }
    else
      { s with pixels_up := s.pixels_up + 1 }

/-- Initial animation state set in `DepartureBoard.__init__`
(src/main_desktop.py lines 81-84) and by the reset in `_refresh_data`
(lines 180-183): `pixels_left = 1`, `pixels_up = 0`, `has_elevated = False`,
`pause_count = 0`. -/
def initScrollState : ScrollState :=
  { has_elevated := false, pixels_left := 1, pixels_up := 0, pause_count := 0 }

/-- A rendered text bitmap: an alpha mask of the given dimensions, as handed
out by `BitmapTextCache.get_bitmap`. `alpha px py` is the pixel value at
column `px`, row `py` (the source indexes `pixels[px, py]`). -/
structure Bitmap where
  width : Nat
  height : Nat
  alpha : Nat → Nat → Nat

/-- Pixels written by `DepartureBoard._draw_bitmap` (src/main_desktop.py
lines 316-330): every bitmap pixel with positive alpha whose screen position
satisfies `0 <= x + px < 256 and 0 <= y + py < 64`. -/
def draw_bitmap (x y : Int) (bitmap : Bitmap) : List (Int × Int) :=
  (List.range bitmap.height).flatMap fun py =>
    (List.range bitmap.width).filterMap fun px =>
      if bitmap.alpha px py > 0 then
        if 0 ≤ x + px ∧ x + px < 256 ∧ 0 ≤ y + py ∧ y + py < 64 then
          some (x + px, y + py)
        else none
      else none

/-- Pixels written by `DepartureBoard._draw_bitmap_clipped`
(src/main_desktop.py lines 287-314): every bitmap pixel with positive alpha
whose screen position lies in the horizontal clip band
`[clip_x_start, clip_x_start + clip_width)`, the vertical clip band
`[y, y + 10)`, and the hard-coded screen bounds `0 <= screen_x < 256`,
`0 <= screen_y < 22`. -/
def draw_bitmap_clipped (x y : Int) (bitmap : Bitmap)
    (clip_x_start clip_width : Int) : List (Int × Int) :=
  let clip_x_end := clip_x_start + clip_width
  let clip_y_start := y
  let clip_y_end := y + 10
  (List.range bitmap.height).flatMap fun py =>
    (List.range bitmap.width).filterMap fun px =>
      if bitmap.alpha px py > 0 then
        if clip_x_start ≤ x + px ∧ x + px < clip_x_end ∧
           clip_y_start ≤ y + py ∧ y + py < clip_y_end ∧
           0 ≤ x + px ∧ x + px < 256 ∧ 0 ≤ y + py ∧ y + py < 22 then
          some (x + px, y + py)
        else none
      else none

/-- One call to `DepartureBoard._draw_scrolling_text` (src/main_desktop.py
lines 254-285): draws the calling-at bitmap through the clipped blit at the
offset determined by the current phase, then applies the state update
`scrollStep`.  Returns the written pixels and the successor state. -/
def draw_scrolling_text (bmp : Bitmap) (x_offset y_pos max_width : Int)
    (s : ScrollState) : List (Int × Int) × ScrollState :=
  let ops :=
    if s.has_elevated then
      draw_bitmap_clipped (x_offset + s.pixels_left - 1) y_pos bmp
        x_offset max_width
    else
      draw_bitmap_clipped x_offset (y_pos + (bmp.height : Int) - s.pixels_up)
        bmp x_offset max_width
  (ops, scrollStep bmp.width bmp.height s)

/-- One departure record as consumed by the engine (fields used by
src/main_desktop.py: `aimed_departure_time`, `expected_departure_time`,
`destination_name`, optional `platform`, `calling_at_list`). -/
structure Departure where
  aimed_departure_time : String
  expected_departure_time : String
  destination_name : String
  platform : Option String
  calling_at_list : String
deriving DecidableEq, Repr

/-- Status string computed by `DepartureBoard._get_status_text`
(src/main_desktop.py lines 332-346).  The source's `isinstance(expected,
str)` guard is always true here because the embedding types the expected
time as a string. -/
def get_status_text (departure : Departure) : String :=
  let expected := departure.expected_departure_time
  let aimed := departure.aimed_departure_time
  if expected = "On time" then "On time"
  else if expected = "Cancelled" then "Cancelled"
  else if expected = "Delayed" then "Delayed"
  else if expected ≠ aimed then "Exp " ++ expected
  else "On time"

/-- The four font handles loaded by `DepartureBoard._load_fonts`
(src/main_desktop.py lines 105-108). -/
inductive FontId where
  | regular
  | bold
  | boldTall
  | boldLarge
deriving DecidableEq, Repr

/-- One draw call emitted by `DepartureBoard._draw_departure_row`
(src/main_desktop.py lines 208-252), recorded at the placement level: which
text is drawn with which font at which screen position.  The scrolling
calling-at text is recorded as the call to `_draw_scrolling_text` with its
arguments. -/
inductive RowOp where
  | train (text : String) (font : FontId) (x y : Int)
  | status (text : String) (font : FontId) (x y : Int)
  | plat (text : String) (font : FontId) (x y : Int)
  | callingLabel (text : String) (font : FontId) (x y : Int)
  | scrollingText (text : String) (x_offset y max_width : Int)
deriving DecidableEq, Repr

/-- Recognizer for the platform draw call among a row's operations. -/
def RowOp.isPlat : RowOp → Bool
  | .plat _ _ _ _ => true
  | _ => false

/-- Draw calls of `DepartureBoard._draw_departure_row` (src/main_desktop.py
lines 208-252).  `widthOf text font` stands for the width the bitmap cache
measures for `text` rendered in `font` (the `w` components returned by
`get_bitmap`); `row_font` is the font passed in for the train text
(`self.font_bold` or `self.font` per `_draw_departures`). -/
def draw_departure_row (showDepartureNumbers : Bool)
    (widthOf : String → FontId → Int) (departure : Departure) (y_pos : Int)
    (row_font : FontId) (show_calling : Bool) : List RowOp :=
  let time_str := departure.aimed_departure_time
  let dest_str := departure.destination_name
  let train_text :=
    if showDepartureNumbers ∧ y_pos = 0 then
      "1st  " ++ time_str ++ "  " ++ dest_str
    else if showDepartureNumbers ∧ y_pos = 24 then
      "2nd  " ++ time_str ++ "  " ++ dest_str
    else if showDepartureNumbers ∧ y_pos = 36 then
      "3rd  " ++ time_str ++ "  " ++ dest_str
    else
      time_str ++ "  " ++ dest_str
  let status_text := get_status_text departure
  let w_status := widthOf status_text FontId.regular
  let platform_ops :=
    match departure.platform with
    | some p =>
      let platform_text := if p.toLower = "bus" then "BUS" else "Plat " ++ p
      let w_plat := widthOf platform_text FontId.regular
      [RowOp.plat platform_text FontId.regular
        (256 - w_status - w_plat - 5) y_pos]
    | none => []
  let calling_ops :=
    if show_calling then
      let calling_text := "Calling at: "
      let w_call := widthOf calling_text FontId.regular
      [RowOp.callingLabel calling_text FontId.regular 0 (y_pos + 12),
       RowOp.scrollingText departure.calling_at_list w_call (y_pos + 12)
         (256 - w_call)]
    else []
  [RowOp.train train_text row_font 0 y_pos,
   RowOp.status status_text FontId.regular (256 - w_status) y_pos]
    ++ platform_ops ++ calling_ops

/-- One plain (unclipped) text placement: a call to `_draw_bitmap` with a
cached bitmap, recorded as text, font and position. -/
structure Placement where
  text : String
  font : FontId
  x : Int
  y : Int
deriving DecidableEq, Repr

/-- Draw calls of `DepartureBoard._draw_no_trains` (src/main_desktop.py
lines 348-364).  `station_name` is the engine's current station name and
`outOfHoursName` the optional config fallback; the source computes
`self.station_name or self.config["journey"].get("outOfHoursName", "")`,
i.e. the fallback is used exactly when the station name is empty. -/
def draw_no_trains (widthOf : String → FontId → Int) (station_name : String)
    (outOfHoursName : Option String) : List Placement :=
  let station_text :=
    if station_name ≠ "" then station_name else outOfHoursName.getD ""
  let w1 := widthOf "Welcome to" FontId.bold
  let w2 := widthOf station_text FontId.bold
  let w3 := widthOf "No trains scheduled" FontId.regular
  [{ text := "Welcome to", font := FontId.bold,
     x := Int.fdiv (256 - w1) 2, y := 5 },
   { text := station_text, font := FontId.bold,
     x := Int.fdiv (256 - w2) 2, y := 17 },
   { text := "No trains scheduled", font := FontId.regular,
     x := Int.fdiv (256 - w3) 2, y := 35 }]

/-- A loaded FreeType font as seen by the bitmap cache: `getname()` returns
the `(family, style)` pair, and the point size is the second argument of
`ImageFont.truetype`.  Note the cache key built in `get_bitmap` uses only
the name pair, not the size. -/
structure FreeTypeFont where
  family : String
  style : String
  size : Nat
deriving DecidableEq, Repr

/-- One entry of `BitmapTextCache._cache` (src/main_desktop.py lines 38-42). -/
structure CacheEntry where
  txt_width : Int
  txt_height : Int
  bitmap : Bitmap

/-- Lookup of `BitmapTextCache.get_bitmap` (src/main_desktop.py lines
22-44).  The cache dictionary is embedded as an association list from key
strings to entries; `measure text font` stands for the last two components
of `font.getbbox(text)` and `raster text font` for the bitmap produced by
drawing `text` into a fresh image.  The key is
`text + ''.join(font.getname())`, exactly as in the source. -/
def get_bitmap (measure : String → FreeTypeFont → Int × Int)
    (raster : String → FreeTypeFont → Bitmap)
    (cache : List (String × CacheEntry)) (text : String)
    (font : FreeTypeFont) : (Int × Int × Bitmap) × List (String × CacheEntry) :=
  let font_key := font.family ++ font.style
  let key := text ++ font_key
  match cache.lookup key with
  | some cached => ((cached.txt_width, cached.txt_height, cached.bitmap), cache)
  | none =>
    let m := measure text font
    let bmp := raster text font
    ((m.1, m.2, bmp), (key, ⟨m.1, m.2, bmp⟩) :: cache)

/-- Mutable state of `DepartureBoard` relevant to `_refresh_data`: the
departure data, station name, and the five animation counters
(src/main_desktop.py lines 77-85). -/
structure BoardState where
  departure_data : Option (List Departure)
  station_name : String
  pixels_left : Int
  pixels_up : Int
  has_elevated : Bool
  pause_count : Int
  station_render_count : Int
deriving DecidableEq, Repr

/-- Outcome of the external `loadDeparturesForStation` call inside
`_refresh_data`: either a successful `(departures, station, dest_station)`
triple, or an exception (network/API failure). -/
inductive FetchResult where
  | ok (departures : List Departure) (station : String)
       (dest_station : Option String)
  | err
deriving DecidableEq, Repr

/-- State replacement performed by `DepartureBoard._refresh_data`
(src/main_desktop.py lines 149-188).  `outsideOperatingHours` is true when
the configured operating-hours check (`isRun`) says the board is closed;
`screen1Platform` is the configured platform filter (`none` when the config
value is falsy); `fetch` is the outcome of the API call.  The source resets
the animation counters only on the successful-load path; the early
out-of-hours return and the exception handler leave them untouched. -/
def refresh_data (outsideOperatingHours : Bool)
    (screen1Platform : Option String) (fetch : FetchResult)
    (s : BoardState) : BoardState :=
  if outsideOperatingHours then
    { s with departure_data := some [] }
  else
    match fetch with
    | .err => { s with departure_data := some [] }
    | .ok departures station _dest =>
      let data :=
        match screen1Platform with
        | some p => departures.filter fun dep => dep.platform = some p
        | none => departures
      { s with
        departure_data := some data,
        station_name := station,
        pixels_left := 1,
        pixels_up := 0,
        has_elevated := false,
        pause_count := 0,
        station_render_count := 0 }

/-- Does a state sit in the REVEAL phase with `pixels_up = 0` and
`pause_count = 0` (the configuration the spec's phase-cycle property says
the animator returns to)? -/
def hitsRevealZero (s : ScrollState) : Bool :=
  !s.has_elevated && s.pixels_up == 0 && s.pause_count == 0

/-- Does the animator, within `fuel` further frames after state `s`, ever
reach a state satisfying `hitsRevealZero`? -/
def returnsWithin (w h : Int) : Nat → ScrollState → Bool
  | 0, _ => false
  | fuel + 1, s =>
    let s' := scrollStep w h s
    hitsRevealZero s' || returnsWithin w h fuel s'

/-- Claim C1 (counterexample): the scroll-animator step does not follow the
spec's transition table.  At the SCROLL state `pixels_left = -6`,
`pause_count = 0` with text width 5 the text has fully exited and
`pause_count < 8`, so the spec's table says the animator stays in SCROLL,
but the code transitions back to REVEAL; and at the REVEAL state
`pixels_up = 3 = textHeight`, `pause_count = 101 > 100` the spec says
`pause_count` resets to 0 at the transition, but the code leaves it at the
incremented value 102. -/
theorem scroll_transition_claim_cex :
    (scrollStep 5 3 ⟨true, -6, 0, 0⟩).has_elevated = false ∧
    (scrollStep 5 3 ⟨false, 7, 3, 101⟩).pause_count = 102 := by
  decide

/-- Claim C1 (amended): the exact transition table of the scroll-animator
step.  In REVEAL with `pixels_up = textHeight`, `pause_count` is
incremented; when the incremented value exceeds 100 the step transitions to
SCROLL with `pixels_up` reset to 0 and `pause_count` keeping the incremented
value (it is not reset at the transition).  In SCROLL, the step transitions
to REVEAL exactly when the text has fully exited (`-pixels_left >
textWidth`) and `pause_count < 8`, incrementing `pause_count` and resetting
`pixels_left` to 0; otherwise it stays in SCROLL, resetting `pause_count` to
0 and decrementing `pixels_left`. -/
theorem scroll_transition_table (w h : Int) (s : ScrollState) :
    (s.has_elevated = false → s.pixels_up = h → 100 < s.pause_count + 1 →
      scrollStep w h s = ⟨true, s.pixels_left, 0, s.pause_count + 1⟩) ∧
    (s.has_elevated = false → s.pixels_up = h → s.pause_count + 1 ≤ 100 →
      scrollStep w h s = ⟨false, s.pixels_left, s.pixels_up, s.pause_count + 1⟩) ∧
    (s.has_elevated = false → s.pixels_up ≠ h →
      scrollStep w h s = ⟨false, s.pixels_left, s.pixels_up + 1, s.pause_count⟩) ∧
    (s.has_elevated = true → -s.pixels_left > w → s.pause_count < 8 →
      scrollStep w h s = ⟨false, 0, s.pixels_up, s.pause_count + 1⟩) ∧
    (s.has_elevated = true → ¬(-s.pixels_left > w ∧ s.pause_count < 8) →
      scrollStep w h s = ⟨true, s.pixels_left - 1, s.pixels_up, 0⟩) := by
  obtain ⟨he, pl, pu, pc⟩ := s
  refine ⟨fun h1 h2 h3 => ?_, fun h1 h2 h3 => ?_, fun h1 h2 => ?_,
    fun h1 h2 h3 => ?_, fun h1 h2 => ?_⟩ <;>
    subst h1 <;> simp_all [scrollStep]

/-- Witness for `scroll_transition_table` at a concrete SCROLL state. -/
theorem scroll_transition_table_witness :
    scrollStep 2 4 ⟨true, -3, 0, 5⟩ = ⟨false, 0, 0, 6⟩ := by
  have h := (scroll_transition_table 2 4 ⟨true, -3, 0, 5⟩).2.2.2.1 rfl
    (by norm_num) (by norm_num)
  simpa using h

/-- Auxiliary invariant step for claim C4: one scroll step preserves
`0 ≤ pixels_up ≤ h` and `pixels_left ≤ 1`. -/
theorem scrollStep_bounds_aux (w h : Int) (s : ScrollState)
    (h0 : 0 ≤ s.pixels_up) (h1 : s.pixels_up ≤ h) (h2 : s.pixels_left ≤ 1) :
    0 ≤ (scrollStep w h s).pixels_up ∧ (scrollStep w h s).pixels_up ≤ h ∧
      (scrollStep w h s).pixels_left ≤ 1 := by
  obtain ⟨he, pl, pu, pc⟩ := s
  cases he <;> simp_all [scrollStep] <;> split_ifs <;> simp_all <;> omega

/-- Claim C4: for every text width and (nonnegative) height and every number
of animator steps taken from the initial state, `pixels_up` stays in
`[0, textHeight]` and `pixels_left` stays at most 1. -/
theorem scroll_state_bounds (w h : Int) (hh : 0 ≤ h) (n : Nat) :
    0 ≤ ((scrollStep w h)^[n] initScrollState).pixels_up ∧
    ((scrollStep w h)^[n] initScrollState).pixels_up ≤ h ∧
    ((scrollStep w h)^[n] initScrollState).pixels_left ≤ 1 := by
  induction n with
  | zero => simpa [initScrollState] using hh
  | succ k ih =>
    rw [Function.iterate_succ_apply']
    exact scrollStep_bounds_aux w h _ ih.1 ih.2.1 ih.2.2

/-- Witness for `scroll_state_bounds` with width 3, height 5, 7 steps. -/
theorem scroll_state_bounds_witness :
    (0 : Int) ≤ 5 ∧
    (0 ≤ ((scrollStep 3 5)^[7] initScrollState).pixels_up ∧
     ((scrollStep 3 5)^[7] initScrollState).pixels_up ≤ 5 ∧
     ((scrollStep 3 5)^[7] initScrollState).pixels_left ≤ 1) :=
  ⟨by norm_num, scroll_state_bounds 3 5 (by norm_num) 7⟩

/-- Claim C5: the unclipped blit writes only pixels inside the 256×64
canvas, and the clipped blit writes only pixels inside the clip rectangle
`[clip_x_start, clip_x_start + clip_width) × [y, y + 10)` intersected with
the canvas bounds; out-of-range pixels are silently dropped (the blit is a
total function, never an error). -/
theorem blit_write_bounds (x y : Int) (bmp : Bitmap)
    (clip_x_start clip_width : Int) (p : Int × Int) :
    (p ∈ draw_bitmap x y bmp →
      0 ≤ p.1 ∧ p.1 < 256 ∧ 0 ≤ p.2 ∧ p.2 < 64) ∧
    (p ∈ draw_bitmap_clipped x y bmp clip_x_start clip_width →
      clip_x_start ≤ p.1 ∧ p.1 < clip_x_start + clip_width ∧
      y ≤ p.2 ∧ p.2 < y + 10 ∧
      0 ≤ p.1 ∧ p.1 < 256 ∧ 0 ≤ p.2 ∧ p.2 < 64) := by
  constructor
  · intro hp
    simp only [draw_bitmap, List.mem_flatMap, List.mem_filterMap,
      List.mem_range] at hp
    obtain ⟨py, hpy, px, hpx, hf⟩ := hp
    by_cases ha : bmp.alpha px py > 0
    · rw [if_pos ha] at hf
      by_cases hb : 0 ≤ x + (px : Int) ∧ x + px < 256 ∧
          0 ≤ y + (py : Int) ∧ y + py < 64
      · rw [if_pos hb] at hf
        obtain rfl : (x + (px : Int), y + (py : Int)) = p := by simpa using hf
        simpa using hb
      · rw [if_neg hb] at hf
        exact absurd hf (by simp)
    · rw [if_neg ha] at hf
      exact absurd hf (by simp)
  · intro hp
    simp only [draw_bitmap_clipped, List.mem_flatMap, List.mem_filterMap,
      List.mem_range] at hp
    obtain ⟨py, hpy, px, hpx, hf⟩ := hp
    by_cases ha : bmp.alpha px py > 0
    · rw [if_pos ha] at hf
      by_cases hb : clip_x_start ≤ x + (px : Int) ∧
          x + px < clip_x_start + clip_width ∧
          y ≤ y + (py : Int) ∧ y + py < y + 10 ∧
          0 ≤ x + (px : Int) ∧ x + px < 256 ∧
          0 ≤ y + (py : Int) ∧ y + py < 22
      · rw [if_pos hb] at hf
        obtain rfl : (x + (px : Int), y + (py : Int)) = p := by simpa using hf
        obtain ⟨c1, c2, c3, c4, c5, c6, c7, c8⟩ := hb
        exact ⟨c1, c2, c3, c4, c5, c6, c7, by omega⟩
      · rw [if_neg hb] at hf
        exact absurd hf (by simp)
    · rw [if_neg ha] at hf
      exact absurd hf (by simp)

/-- Witness for `blit_write_bounds`: a concrete 1×1 all-on bitmap blitted at
the origin writes the pixel `(0, 0)`, which the theorem places inside the
canvas and clip bounds. -/
theorem blit_write_bounds_witness :
    ((0, 0) ∈ draw_bitmap 0 0 ⟨1, 1, fun _ _ => 1⟩ ∧
      (0 : Int) ≤ 0 ∧ (0 : Int) < 256 ∧ (0 : Int) ≤ 0 ∧ (0 : Int) < 64) ∧
    ((0, 0) ∈ draw_bitmap_clipped 0 0 ⟨1, 1, fun _ _ => 1⟩ 0 10 ∧
      (0 : Int) ≤ 0 ∧ (0 : Int) < 0 + 10 ∧ (0 : Int) ≤ 0 ∧ (0 : Int) < 0 + 10 ∧
      (0 : Int) ≤ 0 ∧ (0 : Int) < 256 ∧ (0 : Int) ≤ 0 ∧ (0 : Int) < 64) := by
  constructor
  · have hm : ((0 : Int), (0 : Int)) ∈ draw_bitmap 0 0 ⟨1, 1, fun _ _ => 1⟩ := by
      decide
    have h := (blit_write_bounds 0 0 ⟨1, 1, fun _ _ => 1⟩ 0 10 (0, 0)).1 hm
    exact ⟨hm, h.1, h.2.1, h.2.2.1, h.2.2.2⟩
  · have hm : ((0 : Int), (0 : Int)) ∈
        draw_bitmap_clipped 0 0 ⟨1, 1, fun _ _ => 1⟩ 0 10 := by
      decide
    have h := (blit_write_bounds 0 0 ⟨1, 1, fun _ _ => 1⟩ 0 10 (0, 0)).2 hm
    exact ⟨hm, h.1, h.2.1, h.2.2.1, h.2.2.2.1, h.2.2.2.2.1, h.2.2.2.2.2.1,
      h.2.2.2.2.2.2.1, h.2.2.2.2.2.2.2⟩

/-- Claim C10: the clipped blit never writes a pixel with screen row index
22 or more (the code bounds-checks rows against the hard-coded limit 22
rather than the 64-row canvas height), and a clipped blit placed at
`y ≥ 22` writes nothing at all. -/
theorem clipped_blit_row_limit (x y : Int) (bmp : Bitmap)
    (clip_x_start clip_width : Int) :
    (∀ p ∈ draw_bitmap_clipped x y bmp clip_x_start clip_width,
      p.2 < 22) ∧
    (22 ≤ y → draw_bitmap_clipped x y bmp clip_x_start clip_width = []) := by
  have key : ∀ p ∈ draw_bitmap_clipped x y bmp clip_x_start clip_width,
      y ≤ p.2 ∧ p.2 < 22 := by
    intro p hp
    simp only [draw_bitmap_clipped, List.mem_flatMap, List.mem_filterMap,
      List.mem_range] at hp
    obtain ⟨py, hpy, px, hpx, hf⟩ := hp
    by_cases ha : bmp.alpha px py > 0
    · rw [if_pos ha] at hf
      by_cases hb : clip_x_start ≤ x + (px : Int) ∧
          x + px < clip_x_start + clip_width ∧
          y ≤ y + (py : Int) ∧ y + py < y + 10 ∧
          0 ≤ x + (px : Int) ∧ x + px < 256 ∧
          0 ≤ y + (py : Int) ∧ y + py < 22
      · rw [if_pos hb] at hf
        obtain rfl : (x + (px : Int), y + (py : Int)) = p := by simpa using hf
        obtain ⟨c1, c2, c3, c4, c5, c6, c7, c8⟩ := hb
        exact ⟨c3, c8⟩
      · rw [if_neg hb] at hf
        exact absurd hf (by simp)
    · rw [if_neg ha] at hf
      exact absurd hf (by simp)
  refine ⟨fun p hp => (key p hp).2, fun hy => ?_⟩
  rw [List.eq_nil_iff_forall_not_mem]
  intro p hp
  have h := key p hp
  omega

/-- Witness for `clipped_blit_row_limit`: at `y = 30 ≥ 22` the clipped blit
of a concrete all-on 1×1 bitmap writes nothing. -/
theorem clipped_blit_row_limit_witness :
    (22 : Int) ≤ 30 ∧
    draw_bitmap_clipped 0 30 ⟨1, 1, fun _ _ => 1⟩ 0 10 = [] :=
  ⟨by norm_num,
    (clipped_blit_row_limit 0 30 ⟨1, 1, fun _ _ => 1⟩ 0 10).2 (by norm_num)⟩

/-- Claim C6: the status text is the sentinel itself when the expected time
equals "On time", "Cancelled" or "Delayed"; it is `"Exp {expected}"` when
the expected time is not a sentinel and differs from the aimed time; and it
is "On time" in the remaining case (expected equal to aimed). -/
theorem status_text_cases (d : Departure) :
    ((d.expected_departure_time = "On time" ∨
      d.expected_departure_time = "Cancelled" ∨
      d.expected_departure_time = "Delayed") →
      get_status_text d = d.expected_departure_time) ∧
    (d.expected_departure_time ≠ "On time" →
      d.expected_departure_time ≠ "Cancelled" →
      d.expected_departure_time ≠ "Delayed" →
      d.expected_departure_time ≠ d.aimed_departure_time →
      get_status_text d = "Exp " ++ d.expected_departure_time) ∧
    (d.expected_departure_time ≠ "On time" →
      d.expected_departure_time ≠ "Cancelled" →
      d.expected_departure_time ≠ "Delayed" →
      d.expected_departure_time = d.aimed_departure_time →
      get_status_text d = "On time") := by
  refine ⟨fun hc => ?_, fun h1 h2 h3 h4 => ?_, fun h1 h2 h3 h4 => ?_⟩
  · rcases hc with h | h | h <;> simp [get_status_text, h]
  · simp [get_status_text, h1, h2, h3, h4]
  · simp only [get_status_text]
    rw [if_neg h1, if_neg h2, if_neg h3, if_neg (not_not_intro h4)]

/-- Witness for `status_text_cases`: the spec scenario with expected time
"10:45" differing from aimed time "10:32" yields "Exp 10:45". -/
theorem status_text_cases_witness :
    get_status_text ⟨"10:32", "10:45", "London Paddington", none, ""⟩ =
      "Exp " ++ "10:45" :=
  (status_text_cases ⟨"10:32", "10:45", "London Paddington", none, ""⟩).2.1
    (by decide) (by decide) (by decide) (by decide)

/-- Claim C2 (counterexample): a data refresh that takes the
out-of-operating-hours path does not reset the scroll-animation state to the
initial tuple — starting from `pixels_left = -5`, `pixels_up = 2`,
`has_elevated = true`, `pause_count = 3`, the state after the refresh is
unchanged rather than `(1, 0, false, 0)`. -/
theorem refresh_data_reset_cex :
    ¬((refresh_data true none FetchResult.err
        ⟨none, "", -5, 2, true, 3, 1⟩).pixels_left = 1 ∧
      (refresh_data true none FetchResult.err
        ⟨none, "", -5, 2, true, 3, 1⟩).pixels_up = 0 ∧
      (refresh_data true none FetchResult.err
        ⟨none, "", -5, 2, true, 3, 1⟩).has_elevated = false ∧
      (refresh_data true none FetchResult.err
        ⟨none, "", -5, 2, true, 3, 1⟩).pause_count = 0) := by
  decide

/-- Claim C2 (amended): only the successful-load path of the data refresh
resets the scroll-animation state to the initial tuple `pixels_left = 1`,
`pixels_up = 0`, `has_elevated = false`, `pause_count = 0`; the
out-of-operating-hours path and the data-source-error path set the
departure list to empty and leave every other field, the animation state
included, unchanged. -/
theorem refresh_data_anim (oh : Bool) (plat : Option String)
    (fetch : FetchResult) (s : BoardState) :
    (∀ deps station dest, oh = false →
      fetch = FetchResult.ok deps station dest →
      ((refresh_data oh plat fetch s).pixels_left = 1 ∧
       (refresh_data oh plat fetch s).pixels_up = 0 ∧
       (refresh_data oh plat fetch s).has_elevated = false ∧
       (refresh_data oh plat fetch s).pause_count = 0)) ∧
    (oh = true →
      refresh_data oh plat fetch s = { s with departure_data := some [] }) ∧
    (oh = false → fetch = FetchResult.err →
      refresh_data oh plat fetch s = { s with departure_data := some [] }) := by
  refine ⟨fun deps station dest h1 h2 => ?_, fun h1 => ?_, fun h1 h2 => ?_⟩ <;>
    subst h1 <;> simp [refresh_data] <;> subst h2 <;> simp [refresh_data]

/-- Witness for `refresh_data_anim`: a successful load resets the animation
state even when the previous state was mid-scroll. -/
theorem refresh_data_anim_witness :
    (refresh_data false none (FetchResult.ok [] "Paddington" none)
      ⟨none, "", -5, 2, true, 3, 1⟩).pixels_left = 1 ∧
    (refresh_data false none (FetchResult.ok [] "Paddington" none)
      ⟨none, "", -5, 2, true, 3, 1⟩).pixels_up = 0 ∧
    (refresh_data false none (FetchResult.ok [] "Paddington" none)
      ⟨none, "", -5, 2, true, 3, 1⟩).has_elevated = false ∧
    (refresh_data false none (FetchResult.ok [] "Paddington" none)
      ⟨none, "", -5, 2, true, 3, 1⟩).pause_count = 0 :=
  (refresh_data_anim false none (FetchResult.ok [] "Paddington" none)
    ⟨none, "", -5, 2, true, 3, 1⟩).1 [] "Paddington" none rfl rfl

set_option maxRecDepth 10000 in
/-- Claim C3 (counterexample): with text width 1 and height 1 the animator,
started from the initial state, never again reaches the REVEAL phase with
`pause_count = 0` and `pixels_up = 0` within 1100 frames — ten times the
claimed bound of textHeight + textWidth + 108 = 110 frames. -/
theorem scroll_cycle_claim_cex :
    returnsWithin 1 1 1100 initScrollState = false := by
  decide

/-- Single-step lemma: in REVEAL with `pixels_up` below the text height, the
step increments `pixels_up`. -/
theorem scrollStep_reveal_inc (w h pl pu pc : Int) (hne : pu ≠ h) :
    scrollStep w h ⟨false, pl, pu, pc⟩ = ⟨false, pl, pu + 1, pc⟩ := by
  simp [scrollStep, hne]

/-- Single-step lemma: in SCROLL, while the exit condition does not hold the
step decrements `pixels_left` and resets `pause_count` to 0. -/
theorem scrollStep_scroll_stay (w h pl pu pc : Int)
    (hcond : ¬(-pl > w ∧ pc < 8)) :
    scrollStep w h ⟨true, pl, pu, pc⟩ = ⟨true, pl - 1, pu, 0⟩ := by
  simp [scrollStep, hcond]

/-- Single-step lemma: in SCROLL, when the text has fully exited and
`pause_count < 8`, the step returns to REVEAL with `pixels_left` reset to 0
and `pause_count` incremented. -/
theorem scrollStep_scroll_exit (w h pl pu pc : Int)
    (h1 : -pl > w) (h2 : pc < 8) :
    scrollStep w h ⟨true, pl, pu, pc⟩ = ⟨false, 0, pu, pc + 1⟩ := by
  simp [scrollStep, h1, h2]

/-- Ascent segment of the scroll cycle: while `pixels_up` is below the text
height the REVEAL branch increments it once per frame, leaving the other
fields untouched. -/
theorem scroll_ascent_aux (w h pl pc : Int) :
    ∀ n : Nat, (n : Int) ≤ h →
      (scrollStep w h)^[n] ⟨false, pl, h - (n : Int), pc⟩ = ⟨false, pl, h, pc⟩ := by
  intro n
  induction n with
  | zero => intro _; simp
  | succ k ih =>
    intro hk
    have hne : h - ((k + 1 : Nat) : Int) ≠ h := by push_cast; omega
    rw [Function.iterate_succ_apply,
      scrollStep_reveal_inc w h pl (h - ((k + 1 : Nat) : Int)) pc hne,
      show h - ((k + 1 : Nat) : Int) + 1 = h - (k : Int) from by push_cast; ring]
    exact ih (by push_cast at hk ⊢; omega)

/-- Pause segment of the scroll cycle: once `pixels_up` sits at the text
height, `pause_count` climbs to 101, and the frame that reaches 101 flips
`has_elevated` on and resets `pixels_up` (but not `pause_count`). -/
theorem scroll_pause_aux (w h pl : Int) :
    ∀ (n : Nat) (pc : Int), 0 ≤ pc → pc + (n : Int) = 101 → 1 ≤ n →
      (scrollStep w h)^[n] ⟨false, pl, h, pc⟩ = ⟨true, pl, 0, 101⟩ := by
  intro n
  induction n with
  | zero => intro pc _ _ hn; exact absurd hn (by norm_num)
  | succ k ih =>
    intro pc h0 hsum _
    rw [Function.iterate_succ_apply]
    by_cases hk : k = 0
    · subst hk
      have hpc : pc = 100 := by push_cast at hsum; omega
      subst hpc
      have h100 : (100 : Int) + 1 > 100 := by norm_num
      have hstep : scrollStep w h ⟨false, pl, h, 100⟩ = ⟨true, pl, 0, 101⟩ := by
        simp [scrollStep, h100]
      rw [hstep]
      simp
    · have hk1 : 1 ≤ k := Nat.one_le_iff_ne_zero.mpr hk
      have hle : ¬(pc + 1 > 100) := by push_cast at hsum; omega
      have hstep : scrollStep w h ⟨false, pl, h, pc⟩ = ⟨false, pl, h, pc + 1⟩ := by
        simp [scrollStep, hle]
      rw [hstep]
      exact ih (pc + 1) (by omega) (by push_cast at hsum ⊢; omega) hk1

/-- Descent segment of the scroll cycle: while the text has not fully
exited, the SCROLL branch decrements `pixels_left` once per frame and keeps
`pause_count` at 0. -/
theorem scroll_descent_aux (w h pu : Int) :
    ∀ (n : Nat) (j : Int), 0 ≤ j → j + (n : Int) ≤ w + 1 →
      (scrollStep w h)^[n] ⟨true, -j, pu, 0⟩ = ⟨true, -(j + (n : Int)), pu, 0⟩ := by
  intro n
  induction n with
  | zero => intro j _ _; simp
  | succ k ih =>
    intro j h0 hle
    have hcond : ¬(-(-j) > w ∧ (0 : Int) < 8) := by
      rintro ⟨ha, _⟩
      push_cast at hle
      omega
    rw [Function.iterate_succ_apply,
      scrollStep_scroll_stay w h (-j) pu 0 hcond,
      show -j - 1 = -(j + 1) from by ring,
      ih (j + 1) (by omega) (by push_cast at hle ⊢; omega),
      show -((j + 1) + (k : Int)) = -(j + ((k + 1 : Nat) : Int)) from by
        push_cast; ring]

/-- Claim C3 (amended): for every text width `w ≥ 1` and height `h ≥ 1`,
the animator started from the initial state re-enters the REVEAL phase with
`pixels_up = 0` and `pixels_left = 0` after exactly `h + w + 104` frames
(`h` ascent frames, 101 pause frames, one SCROLL entry frame, `w + 1`
descent frames, one exit frame), a bound below `h + w + 108`; the re-entry
state carries `pause_count = 1`, not 0. -/
theorem scroll_cycle_return (w h : Int) (hw : 1 ≤ w) (hh : 1 ≤ h) :
    (scrollStep w h)^[h.toNat + w.toNat + 104] initScrollState =
      ⟨false, 0, 0, 1⟩ := by
  have hwc : ((w.toNat : Int)) = w := Int.toNat_of_nonneg (by omega)
  have hhc : ((h.toNat : Int)) = h := Int.toNat_of_nonneg (by omega)
  have e1 : (scrollStep w h)^[h.toNat] initScrollState = ⟨false, 1, h, 0⟩ := by
    have h0 : h - (h.toNat : Int) = 0 := by rw [hhc]; ring
    have := scroll_ascent_aux w h 1 0 h.toNat (by rw [hhc])
    rw [h0] at this
    simpa [initScrollState] using this
  have e2 : (scrollStep w h)^[101] (⟨false, 1, h, 0⟩ : ScrollState)
      = ⟨true, 1, 0, 101⟩ :=
    scroll_pause_aux w h 1 101 0 le_rfl (by norm_num) (by norm_num)
  have e3 : scrollStep w h ⟨true, 1, 0, 101⟩ = ⟨true, 0, 0, 0⟩ := by
    have hcond : ¬(-(1 : Int) > w ∧ (101 : Int) < 8) := by
      rintro ⟨_, hb⟩; omega
    rw [scrollStep_scroll_stay w h 1 0 101 hcond]
    norm_num
  have e4 : (scrollStep w h)^[w.toNat + 1] (⟨true, 0, 0, 0⟩ : ScrollState)
      = ⟨true, -(w + 1), 0, 0⟩ := by
    have := scroll_descent_aux w h 0 (w.toNat + 1) 0 le_rfl
      (by push_cast; rw [hwc]; omega)
    rw [neg_zero] at this
    have h4 : -((0 : Int) + ((w.toNat + 1 : Nat) : Int)) = -(w + 1) := by
      push_cast; rw [hwc]; ring
    rw [h4] at this
    exact this
  have e5 : scrollStep w h ⟨true, -(w + 1), 0, 0⟩ = ⟨false, 0, 0, 1⟩ := by
    rw [scrollStep_scroll_exit w h (-(w + 1)) 0 0 (by omega) (by omega)]
    norm_num
  rw [show h.toNat + w.toNat + 104
      = 1 + ((w.toNat + 1) + (1 + (101 + h.toNat))) from by omega]
  rw [Function.iterate_add_apply (scrollStep w h) 1
      ((w.toNat + 1) + (1 + (101 + h.toNat)))]
  rw [Function.iterate_add_apply (scrollStep w h) (w.toNat + 1)
      (1 + (101 + h.toNat))]
  rw [Function.iterate_add_apply (scrollStep w h) 1 (101 + h.toNat)]
  rw [Function.iterate_add_apply (scrollStep w h) 101 h.toNat]
  rw [e1, e2, Function.iterate_one, e3, e4, e5]

/-- Witness for `scroll_cycle_return` at width 1, height 1: the animator is
back in REVEAL with `pixels_up = 0`, `pixels_left = 0`, `pause_count = 1`
after 106 frames. -/
theorem scroll_cycle_return_witness :
    (scrollStep 1 1)^[(1 : Int).toNat + (1 : Int).toNat + 104] initScrollState =
      ⟨false, 0, 0, 1⟩ :=
  scroll_cycle_return 1 1 le_rfl le_rfl

/-- Claim C7: a departure with a platform field produces exactly one
platform draw call, whose text is "BUS" when the platform value
case-insensitively equals "bus" and `"Plat {platform}"` otherwise, placed at
`x = 256 - statusWidth - platformWidth - 5` (immediately left of the
right-aligned status text with a 5-pixel gap) on the row's baseline; a
departure without a platform field produces no platform draw call. -/
theorem platform_label_spec (showDepartureNumbers : Bool)
    (widthOf : String → FontId → Int) (dep : Departure) (y_pos : Int)
    (row_font : FontId) (show_calling : Bool) :
    (∀ p, dep.platform = some p →
      (draw_departure_row showDepartureNumbers widthOf dep y_pos row_font
          show_calling).filter RowOp.isPlat =
        [RowOp.plat (if p.toLower = "bus" then "BUS" else "Plat " ++ p)
          FontId.regular
          (256 - widthOf (get_status_text dep) FontId.regular -
            widthOf (if p.toLower = "bus" then "BUS" else "Plat " ++ p)
              FontId.regular - 5)
          y_pos]) ∧
    (dep.platform = none →
      (draw_departure_row showDepartureNumbers widthOf dep y_pos row_font
          show_calling).filter RowOp.isPlat = []) := by
  constructor
  · intro p hp
    by_cases hsc : show_calling <;>
      simp [draw_departure_row, hp, hsc, RowOp.isPlat]
  · intro hp
    by_cases hsc : show_calling <;>
      simp [draw_departure_row, hp, hsc, RowOp.isPlat]

/-- Witness for `platform_label_spec`: a platform value "BUS" (upper case)
yields the platform text "BUS" at `x = 256 - 10 - 10 - 5` when every string
measures 10 pixels wide. -/
theorem platform_label_spec_witness :
    (draw_departure_row false (fun _ _ => 10)
        ⟨"10:32", "On time", "London", some "BUS", "A, B"⟩ 0 FontId.bold
        true).filter RowOp.isPlat =
      [RowOp.plat (if "BUS".toLower = "bus" then "BUS" else "Plat " ++ "BUS")
        FontId.regular
        (256 - (fun (_ : String) (_ : FontId) => (10 : Int)) (get_status_text
            ⟨"10:32", "On time", "London", some "BUS", "A, B"⟩) FontId.regular -
          (fun (_ : String) (_ : FontId) => (10 : Int))
            (if "BUS".toLower = "bus" then "BUS" else "Plat " ++ "BUS")
            FontId.regular - 5)
        0] :=
  (platform_label_spec false (fun _ _ => 10)
    ⟨"10:32", "On time", "London", some "BUS", "A, B"⟩ 0 FontId.bold true).1
    "BUS" rfl

/-- Claim C8: looking the same text/font pair up twice in the bitmap cache
returns the same width/height/bitmap triple and leaves the cache unchanged
on the second call, and a lookup never removes or overwrites any existing
cache entry (entries are immutable once created, so the stored bitmap is
shared, never recomputed). -/
theorem get_bitmap_cache_spec (measure : String → FreeTypeFont → Int × Int)
    (raster : String → FreeTypeFont → Bitmap)
    (cache : List (String × CacheEntry)) (text : String)
    (font : FreeTypeFont) :
    ((get_bitmap measure raster
        (get_bitmap measure raster cache text font).2 text font).1 =
      (get_bitmap measure raster cache text font).1) ∧
    ((get_bitmap measure raster
        (get_bitmap measure raster cache text font).2 text font).2 =
      (get_bitmap measure raster cache text font).2) ∧
    (∀ k e, cache.lookup k = some e →
      ((get_bitmap measure raster cache text font).2).lookup k = some e) := by
  cases hc : cache.lookup (text ++ (font.family ++ font.style)) with
  | some cached =>
    refine ⟨?_, ?_, ?_⟩
    · simp [get_bitmap, hc]
    · simp [get_bitmap, hc]
    · intro k e hk
      simpa [get_bitmap, hc] using hk
  | none =>
    refine ⟨?_, ?_, ?_⟩
    · simp [get_bitmap, hc]
    · simp [get_bitmap, hc]
    · intro k e hk
      have hke : k ≠ text ++ (font.family ++ font.style) := by
        intro heq
        rw [heq, hc] at hk
        exact Option.noConfusion hk
      have hbe : (k == text ++ (font.family ++ font.style)) = false :=
        beq_eq_false_iff_ne.mpr hke
      simpa [get_bitmap, hc, List.lookup_cons, hbe] using hk

/-- Witness for `get_bitmap_cache_spec`: an existing entry under key "k"
survives a cache miss for a different text/font pair. -/
theorem get_bitmap_cache_spec_witness :
    ([("k", (⟨3, 4, ⟨0, 0, fun _ _ => 0⟩⟩ : CacheEntry))].lookup "k" =
      some (⟨3, 4, ⟨0, 0, fun _ _ => 0⟩⟩ : CacheEntry)) ∧
    ((get_bitmap (fun _ _ => (7, 8)) (fun _ _ => ⟨0, 0, fun _ _ => 0⟩)
        [("k", (⟨3, 4, ⟨0, 0, fun _ _ => 0⟩⟩ : CacheEntry))] "t"
        ⟨"Dot Matrix", "Bold", 10⟩).2).lookup "k" =
      some (⟨3, 4, ⟨0, 0, fun _ _ => 0⟩⟩ : CacheEntry) :=
  ⟨rfl,
    (get_bitmap_cache_spec (fun _ _ => (7, 8)) (fun _ _ => ⟨0, 0, fun _ _ => 0⟩)
      [("k", (⟨3, 4, ⟨0, 0, fun _ _ => 0⟩⟩ : CacheEntry))] "t"
      ⟨"Dot Matrix", "Bold", 10⟩).2.2 "k"
      (⟨3, 4, ⟨0, 0, fun _ _ => 0⟩⟩ : CacheEntry) rfl⟩

/-- Claim C9: with no departures the no-trains screen renders exactly three
placements — "Welcome to", the station name (or the configured out-of-hours
fallback when the station name is empty), and "No trains scheduled" — each
horizontally centered at `x = (256 - textWidth) / 2` (floor division) using
the measured width of its text, at rows 5, 17 and 35; no departure rows are
drawn. -/
theorem no_trains_spec (widthOf : String → FontId → Int)
    (station_name : String) (outOfHoursName : Option String) :
    ((draw_no_trains widthOf station_name outOfHoursName).map Placement.text =
      ["Welcome to",
       if station_name ≠ "" then station_name else outOfHoursName.getD "",
       "No trains scheduled"]) ∧
    ((draw_no_trains widthOf station_name outOfHoursName).map Placement.y =
      [5, 17, 35]) ∧
    ((draw_no_trains widthOf station_name outOfHoursName).length = 3) ∧
    (∀ p ∈ draw_no_trains widthOf station_name outOfHoursName,
      p.x = Int.fdiv (256 - widthOf p.text p.font) 2) := by
  refine ⟨by simp [draw_no_trains], by simp [draw_no_trains],
    by simp [draw_no_trains], ?_⟩
  intro p hp
  simp only [draw_no_trains, List.mem_cons, List.not_mem_nil, or_false] at hp
  rcases hp with h | h | h <;> subst h <;> rfl

/-- Witness for `no_trains_spec`: with an empty station name and fallback
"Reading", the first placement "Welcome to" sits at
`x = (256 - 100) / 2 = 78` when every string measures 100 pixels wide. -/
theorem no_trains_spec_witness :
    ((⟨"Welcome to", FontId.bold, 78, 5⟩ : Placement) ∈
      draw_no_trains (fun _ _ => 100) "" (some "Reading")) ∧
    (⟨"Welcome to", FontId.bold, 78, 5⟩ : Placement).x =
      Int.fdiv (256 - (fun (_ : String) (_ : FontId) => (100 : Int))
        (⟨"Welcome to", FontId.bold, 78, 5⟩ : Placement).text
        (⟨"Welcome to", FontId.bold, 78, 5⟩ : Placement).font) 2 :=
  ⟨by decide,
    (no_trains_spec (fun _ _ => 100) "" (some "Reading")).2.2.2
      ⟨"Welcome to", FontId.bold, 78, 5⟩ (by decide)⟩
